import Mathlib

/-
Shallow embedding of the session/mode state machine of the Overseerr
Telegram bot (src/telegram_overseerr_bot.py), together with theorems
settling the frozen claims about it.  Every definition below is a direct
translation of the corresponding Python function; machine integers are
modelled as Int/Nat, JSON documents as structures with Option fields,
HTTP calls as oracle functions passed in explicitly.
-/

namespace OverseerrBot

/-- Operating modes (`class BotMode(Enum)` in the source). -/
inductive BotMode
| normal
| api
| shared
deriving DecidableEq

/-- The `primary_chat_id` sub-document of the persisted config. -/
structure PrimaryChat where
  chat_id : Option Int
  message_thread_id : Option Int
deriving DecidableEq

/-- One entry of `config["users"]`. -/
structure UserRecord where
  username : String
  is_authorized : Bool
  is_blocked : Bool
  is_admin : Bool
  created_at : String
deriving DecidableEq

/-- The persisted `data/bot_config.json` document after default-filling. -/
structure Config where
  group_mode : Bool
  primary_chat_id : PrimaryChat
  mode : String
  users : List (String × UserRecord)
deriving DecidableEq

/-- Python `config["users"].get(uid)`: first binding of the key, if any. -/
def lookupUser (users : List (String × UserRecord)) (uid : String) : Option UserRecord :=
  (users.find? (fun p => p.1 == uid)).map (fun p => p.2)

/-- Python `config["users"][uid] = r`: replace the binding or append it. -/
def setUser (users : List (String × UserRecord)) (uid : String) (r : UserRecord) :
    List (String × UserRecord) :=
  if (users.find? (fun p => p.1 == uid)).isSome then
    users.map (fun p => if p.1 == uid then (p.1, r) else p)
  else
    users ++ [(uid, r)]

/-- In-place mutation of an existing binding (`config["users"][uid]["f"] = v`);
a missing key raises KeyError in Python, so nothing is saved: no-op here. -/
def modifyUser (users : List (String × UserRecord)) (uid : String)
    (f : UserRecord → UserRecord) : List (String × UserRecord) :=
  users.map (fun p => if p.1 == uid then (p.1, f p.2) else p)

/-- `is_command_allowed` (source lines 164-195): blocked users are always
denied; admins are always allowed in private chats; otherwise Group Mode
restricts to the primary chat/thread when one is set. -/
def is_command_allowed (chat_id : Int) (message_thread_id : Option Int)
    (config : Config) (telegram_user_id : Int) : Bool :=
  let user := lookupUser config.users (toString telegram_user_id)
  let is_admin := ((user.map (fun u => u.is_admin)).getD false)
  let is_blocked := ((user.map (fun u => u.is_blocked)).getD false)
  if is_blocked then false
  else if is_admin && chat_id > 0 then true
  else if !config.group_mode then true
  else
    match config.primary_chat_id.chat_id with
    | none => true
    | some pc =>
      if chat_id ≠ pc then false
      else
        match config.primary_chat_id.message_thread_id with
        | none => true
        | some pt => if message_thread_id ≠ some pt then false else true

/-- `user_is_authorized` (source lines 197-204). -/
def user_is_authorized (config : Config) (telegram_user_id : Int) : Bool :=
  let user := lookupUser config.users (toString telegram_user_id)
  ((user.map (fun u => u.is_authorized)).getD false)
    && !((user.map (fun u => u.is_blocked)).getD false)

/-- The default config written by `load_config` when the file is missing. -/
def default_config : Config :=
  { group_mode := false
  , primary_chat_id := { chat_id := none, message_thread_id := none }
  , mode := "normal"
  , users := [] }

/-- The raw `primary_chat_id` JSON object: each field may be absent
(outer `Option`) and, when present, may be JSON null (inner `Option`). -/
structure RawPrimaryChat where
  chat_id : Option (Option Int)
  message_thread_id : Option (Option Int)
deriving DecidableEq

/-- The raw on-disk config document before default-filling. -/
structure RawConfig where
  group_mode : Option Bool
  primary_chat_id : Option RawPrimaryChat
  mode : Option String
  users : Option (List (String × UserRecord))
deriving DecidableEq

/-- The `setdefault` chain of `load_config` (source lines 117-124): fill
missing fields, including the two sub-fields of `primary_chat_id`. -/
def load_config_fill (raw : RawConfig) : Config :=
  let pc := raw.primary_chat_id.getD { chat_id := some none, message_thread_id := some none }
  { group_mode := raw.group_mode.getD false
  , primary_chat_id :=
      { chat_id := pc.chat_id.getD none
      , message_thread_id := pc.message_thread_id.getD none }
  , mode := raw.mode.getD "normal"
  , users := raw.users.getD [] }

/-- `save_config` (source lines 219-229): `json.dump` writes every field of
the in-memory config to the file. -/
def save_config_doc (cfg : Config) : RawConfig :=
  { group_mode := some cfg.group_mode
  , primary_chat_id := some
      { chat_id := some cfg.primary_chat_id.chat_id
      , message_thread_id := some cfg.primary_chat_id.message_thread_id }
  , mode := some cfg.mode
  , users := some cfg.users }

/-- Navigation affordances of a rendered page. -/
structure NavRow where
  hasBack : Bool
  hasCancel : Bool
  hasMore : Bool
deriving DecidableEq

/-- A rendered page: the item buttons plus the navigation row. -/
structure RenderedPage (α : Type) where
  items : List α
  nav : NavRow
deriving DecidableEq

/-- Keyboard layout of `display_results_with_buttons` (source lines
1600-1643): 5 titles per page; first page has Cancel (+More when more than
5 results), last page has Back+Cancel, middle pages have all three. -/
def display_results_page {α : Type} (results : List α) (offset : Nat) : RenderedPage α :=
  if offset = 0 then
    { items := (results.drop offset).take 5
    , nav := { hasBack := false, hasCancel := true
             , hasMore := decide (results.length > 5) } }
  else if offset + 5 ≥ results.length then
    { items := (results.drop offset).take 5
    , nav := { hasBack := true, hasCancel := true, hasMore := false } }
  else
    { items := (results.drop offset).take 5
    , nav := { hasBack := true, hasCancel := true, hasMore := true } }

/-- Keyboard layout of `handle_change_user` (source lines 2459-2492):
9 identities per page, offset clamped to the last page; Cancel is always
shown, Back only when `offset > 0`, More only when further users remain. -/
def change_user_page {α : Type} (users : List α) (offset0 : Nat) : RenderedPage α :=
  let total := users.length
  let page_size := 9
  let max_pages := (total + page_size - 1) / page_size
  let offset := min offset0 ((max_pages - 1) * page_size)
  { items := (users.drop offset).take page_size
  , nav := { hasBack := decide (offset > 0)
           , hasCancel := true
           , hasMore := decide (offset + page_size < total) } }

/-- `block_user_` branch of `button_handler` (source lines 1997-2006):
refuse to block the acting main admin, otherwise set `is_blocked` and
clear `is_authorized` on the target record. -/
def block_user_action (actor target : String) (cfg : Config) : Config :=
  let target_is_admin := ((lookupUser cfg.users target).map (fun u => u.is_admin)).getD false
  let blockRec := fun (u : UserRecord) => { u with is_blocked := true, is_authorized := false }
  if target_is_admin && target == actor then cfg
  else { cfg with users := modifyUser cfg.users target blockRec }

lemma lookupUser_modifyUser (users : List (String × UserRecord)) (uid : String)
    (f : UserRecord → UserRecord) :
    lookupUser (modifyUser users uid f) uid = (lookupUser users uid).map f := by
  induction users with
  | nil => rfl
  | cons a t ih =>
    by_cases h : (a.1 == uid) = true
    · have he : a.1 = uid := by simpa using h
      simp [lookupUser, modifyUser, List.find?_cons, he]
    · have h2 : (a.1 == uid) = false := by simpa using h
      simp only [modifyUser, List.map_cons] at *
      rw [show (if a.1 == uid then (a.1, f a.2) else a) = a from by simp [h2]]
      simp only [lookupUser, List.find?_cons, h2] at *
      exact ih

/-- Claim C6: saving a well-formed config with `save_config` and reading it
back with `load_config` yields an equal config, and loading a document with
all optional fields missing fills in the defaults. -/
theorem C6_config_round_trip (cfg : Config) :
    load_config_fill (save_config_doc cfg) = cfg
    ∧ load_config_fill { group_mode := none, primary_chat_id := none
                       , mode := none, users := none } = default_config := by
  constructor
  · rfl
  · rfl

/-- Claim C3: title pages hold at most 5 items and identity-list pages at
most 9; page `p` (at offset `pageSize * p`) is non-empty exactly when
`p < ceil(N / pageSize)`; the first page has no Back button, the last page
has no More button, every page has Cancel, and for `N = 0` the rendered
page consists of the Cancel affordance alone. -/
theorem C3_pagination (α : Type) (l : List α) (p : Nat) :
    ((display_results_page l (5 * p)).items.length = min 5 (l.length - 5 * p)
    ∧ ((display_results_page l (5 * p)).items = [] ↔ (l.length + 4) / 5 ≤ p)
    ∧ (display_results_page l (5 * p)).nav.hasCancel = true
    ∧ (display_results_page l (5 * p)).nav.hasBack = decide (0 < p)
    ∧ (display_results_page l (5 * p)).nav.hasMore = decide (p + 1 < (l.length + 4) / 5))
    ∧ ((change_user_page l (9 * p)).items.length ≤ 9
    ∧ (change_user_page l (9 * p)).nav.hasCancel = true
    ∧ (p < (l.length + 8) / 9 →
        (change_user_page l (9 * p)).items.length = min 9 (l.length - 9 * p))
    ∧ (p < (l.length + 8) / 9 → (change_user_page l (9 * p)).items ≠ [])
    ∧ (p < (l.length + 8) / 9 →
        (change_user_page l (9 * p)).nav.hasBack = decide (0 < p))
    ∧ (p < (l.length + 8) / 9 →
        (change_user_page l (9 * p)).nav.hasMore = decide (p + 1 < (l.length + 8) / 9)))
    ∧ (l.length = 0 →
        display_results_page l 0 =
          { items := [], nav := { hasBack := false, hasCancel := true, hasMore := false } }
        ∧ change_user_page l 0 =
          { items := [], nav := { hasBack := false, hasCancel := true, hasMore := false } }) := by
  have hitems : (display_results_page l (5 * p)).items = (l.drop (5 * p)).take 5 := by
    unfold display_results_page
    split_ifs <;> rfl
  have hlenEq : (display_results_page l (5 * p)).items.length = min 5 (l.length - 5 * p) := by
    rw [hitems]
    simp [List.length_take, List.length_drop]
  have hclamp : min (9 * p) (((l.length + 9 - 1) / 9 - 1) * 9) =
      min (9 * p) (((l.length + 8) / 9 - 1) * 9) := by
    omega
  have hinav : (change_user_page l (9 * p)).nav =
      { hasBack := decide (min (9 * p) (((l.length + 8) / 9 - 1) * 9) > 0)
      , hasCancel := true
      , hasMore := decide (min (9 * p) (((l.length + 8) / 9 - 1) * 9) + 9 < l.length) } := by
    simp only [change_user_page, hclamp]
  have hiitems : (change_user_page l (9 * p)).items =
      (l.drop (min (9 * p) (((l.length + 8) / 9 - 1) * 9))).take 9 := by
    simp only [change_user_page, hclamp]
  have hoff : p < (l.length + 8) / 9 →
      min (9 * p) (((l.length + 8) / 9 - 1) * 9) = 9 * p := by
    omega
  refine ⟨⟨hlenEq, ?_, ?_, ?_, ?_⟩, ⟨?_, ?_, ?_, ?_, ?_, ?_⟩, ?_⟩
  · rw [← List.length_eq_zero, hlenEq]
    omega
  · unfold display_results_page
    split_ifs <;> rfl
  · unfold display_results_page
    split_ifs with h1 h2
    · have hp0 : p = 0 := by omega
      simp [hp0]
    · rw [eq_comm, decide_eq_true_iff]
      omega
    · rw [eq_comm, decide_eq_true_iff]
      omega
  · unfold display_results_page
    split_ifs with h1 h2
    · rw [decide_eq_decide]
      have hp0 : p = 0 := by omega
      simp only [hp0]
      omega
    · rw [eq_comm, decide_eq_false_iff_not]
      omega
    · rw [eq_comm, decide_eq_true_iff]
      simp only [not_le, not_lt] at h2 ⊢
      omega
  · rw [hiitems]
    simp [List.length_take]
  · rw [hinav]
  · intro hp
    rw [hiitems, hoff hp]
    simp [List.length_take, List.length_drop]
  · intro hp
    rw [hiitems, hoff hp]
    intro hc
    have hlc := congrArg List.length hc
    simp only [List.length_take, List.length_drop, List.length_nil] at hlc hp
    omega
  · intro hp
    rw [hinav, hoff hp]
    rw [decide_eq_decide]
    omega
  · intro hp
    rw [hinav, hoff hp]
    rw [decide_eq_decide]
    omega
  · intro h0
    have hnil : l = [] := List.length_eq_zero.mp h0
    subst hnil
    exact ⟨rfl, by simp [change_user_page]⟩

/-- Closed instance of `C3_pagination` on a 12-element list at page 1:
entries 10-12 with Back and Cancel but no More for the identity list, and
the matching facts for the 5-per-page title renderer. -/
theorem C3_pagination_witness :
    ((display_results_page (List.range 12) (5 * 1)).items.length
        = min 5 ((List.range 12).length - 5 * 1)
    ∧ ((display_results_page (List.range 12) (5 * 1)).items = []
        ↔ ((List.range 12).length + 4) / 5 ≤ 1)
    ∧ (display_results_page (List.range 12) (5 * 1)).nav.hasCancel = true
    ∧ (display_results_page (List.range 12) (5 * 1)).nav.hasBack = decide (0 < 1)
    ∧ (display_results_page (List.range 12) (5 * 1)).nav.hasMore
        = decide (1 + 1 < ((List.range 12).length + 4) / 5))
    ∧ ((change_user_page (List.range 12) (9 * 1)).items.length ≤ 9
    ∧ (change_user_page (List.range 12) (9 * 1)).nav.hasCancel = true
    ∧ (1 < ((List.range 12).length + 8) / 9 →
        (change_user_page (List.range 12) (9 * 1)).items.length
          = min 9 ((List.range 12).length - 9 * 1))
    ∧ (1 < ((List.range 12).length + 8) / 9 →
        (change_user_page (List.range 12) (9 * 1)).items ≠ [])
    ∧ (1 < ((List.range 12).length + 8) / 9 →
        (change_user_page (List.range 12) (9 * 1)).nav.hasBack = decide (0 < 1))
    ∧ (1 < ((List.range 12).length + 8) / 9 →
        (change_user_page (List.range 12) (9 * 1)).nav.hasMore
          = decide (1 + 1 < ((List.range 12).length + 8) / 9)))
    ∧ ((List.range 12).length = 0 →
        display_results_page (List.range 12) 0 =
          { items := [], nav := { hasBack := false, hasCancel := true, hasMore := false } }
        ∧ change_user_page (List.range 12) 0 =
          { items := [], nav := { hasBack := false, hasCancel := true, hasMore := false } }) :=
  C3_pagination Nat (List.range 12) 1

/-- Claim C9: a blocked user is denied by `is_command_allowed` and by
`user_is_authorized` regardless of admin flag or private chat, and the
block action additionally clears the allow-list authorization. -/
theorem C9_blocked_dominates
    (cfg : Config) (chat_id : Int) (thread : Option Int) (uid : Int) (u : UserRecord)
    (hu : lookupUser cfg.users (toString uid) = some u)
    (hb : u.is_blocked = true) :
    is_command_allowed chat_id thread cfg uid = false
    ∧ user_is_authorized cfg uid = false
    ∧ (∀ (cfg2 : Config) (actor target : String) (v : UserRecord),
        lookupUser cfg2.users target = some v →
        (v.is_admin && (target == actor)) = false →
        lookupUser (block_user_action actor target cfg2).users target =
          some { v with is_blocked := true, is_authorized := false }) := by
  refine ⟨?_, ?_, ?_⟩
  · simp [is_command_allowed, hu, hb]
  · simp [user_is_authorized, hu, hb]
  · intro cfg2 actor target v hv hguard
    simp [block_user_action, hv, hguard, lookupUser_modifyUser]

/-- Closed instance of `C9_blocked_dominates` at a concrete blocked admin
in a private chat. -/
theorem C9_blocked_dominates_witness :
    is_command_allowed 5 none
      { default_config with users :=
          [("9", { username := "a", is_authorized := true, is_blocked := true
                 , is_admin := true, created_at := "t" })] } 9 = false
    ∧ user_is_authorized
      { default_config with users :=
          [("9", { username := "a", is_authorized := true, is_blocked := true
                 , is_admin := true, created_at := "t" })] } 9 = false
    ∧ (∀ (cfg2 : Config) (actor target : String) (v : UserRecord),
        lookupUser cfg2.users target = some v →
        (v.is_admin && (target == actor)) = false →
        lookupUser (block_user_action actor target cfg2).users target =
          some { v with is_blocked := true, is_authorized := false }) :=
  C9_blocked_dominates
    { default_config with users :=
        [("9", { username := "a", is_authorized := true, is_blocked := true
               , is_admin := true, created_at := "t" })] }
    5 none 9
    { username := "a", is_authorized := true, is_blocked := true
    , is_admin := true, created_at := "t" }
    (by decide) rfl

/-- A Normal/Shared-mode session record as stored in the sessions JSON
files: cookie, recoverable credentials (the base64 blob is modelled by the
decoded `email:password` string, since encoding is a bijection), and the
resolved Overseerr identity. -/
structure SessionData where
  cookie : String
  credentials : String
  overseerr_telegram_user_id : Int
  overseerr_user_name : String
deriving DecidableEq

/-- One entry of `data/api_mode_selections.json`. -/
structure UserSelection where
  userId : Int
  userName : String
deriving DecidableEq

/-- Lookup in the Normal-mode sessions store keyed by Telegram user id. -/
def lookupSession (sessions : List (String × SessionData)) (uid : String) :
    Option SessionData :=
  (sessions.find? (fun p => p.1 == uid)).map (fun p => p.2)

/-- `sessions[uid]["cookie"] = c` (source line 2251): mutate the cookie of
an existing entry; a missing key raises KeyError, so nothing is written. -/
def setSessionCookie (sessions : List (String × SessionData)) (uid : String)
    (c : String) : List (String × SessionData) :=
  sessions.map (fun p => if p.1 == uid then (p.1, { p.2 with cookie := c }) else p)

/-- Lookup in the API-mode selections store (`get_saved_user_for_telegram_id`). -/
def lookupSelection (sels : List (String × UserSelection)) (uid : String) :
    Option UserSelection :=
  (sels.find? (fun p => p.1 == uid)).map (fun p => p.2)

/-- The backend HTTP API as oracles: `session_valid` is the
`check_session_validity` probe on a cookie, `login` is `overseerr_login`
on an `email:password` credential string returning the fresh cookie,
`auth_me_id`/`auth_me_name` are the `/auth/me` lookup on a cookie (0
standing for the falsy missing id), and `issue_ok` is the outcome of a
`create_issue` call. -/
structure Backend where
  session_valid : String → Bool
  login : String → Option String
  auth_me_id : String → Int := fun _ => 0
  auth_me_name : String → String := fun _ => "Unknown"
  issue_ok : Bool := false

/-- The subset of the per-user `context.user_data` that the confirm flow
reads and writes. -/
structure UserCtx where
  session_data : Option SessionData
  overseerr_telegram_user_id : Option Int
deriving DecidableEq

/-- Process-wide mutable state: `CURRENT_MODE` plus the three persisted
credential stores. -/
structure BotState where
  mode : BotMode
  user_sessions : List (String × SessionData)
  shared_session : Option SessionData
  user_selections : List (String × UserSelection)
deriving DecidableEq

/-- `user_data_loader` (source lines 597-629): registered at group -999,
it runs before the other handlers of every incoming message update and
loads the mode-specific credential material into `context.user_data`
(the settings menu performs the same reload, lines 1188-1207). -/
def user_data_loader (uid : String) (ctx : UserCtx) (st : BotState) : UserCtx :=
  match st.mode with
  | BotMode.normal =>
    match lookupSession st.user_sessions uid with
    | some sd =>
      { ctx with session_data := some sd
               , overseerr_telegram_user_id := some sd.overseerr_telegram_user_id }
    | none => ctx
  | BotMode.api =>
    match lookupSelection st.user_selections uid with
    | some sel =>
      if sel.userId ≠ 0 then { ctx with overseerr_telegram_user_id := some sel.userId }
      else ctx
    | none => ctx
  | BotMode.shared =>
    match st.shared_session with
    | some ss =>
      { ctx with overseerr_telegram_user_id := some ss.overseerr_telegram_user_id }
    | none => ctx

/-- How an outbound `/request` call authenticates. -/
inductive ReqAuth
| cookieAuth (c : String)
| apiKey
deriving DecidableEq

/-- The `/request` payload and authentication header actually sent. -/
structure MediaRequest where
  media_id : Int
  media_type : String
  userId : Option Int
  is4k : Bool
  auth : ReqAuth
deriving DecidableEq

/-- `request_media` (source lines 494-518), up to the HTTP exchange: build
the payload (`userId` only when `requested_by` is given; the constant
`seasons: all` field added for tv is not modelled) and pick the
authentication, returning `none` when neither a cookie is supplied nor the
mode is API ("No authentication provided."). -/
def request_media (mode : BotMode) (media_id : Int) (media_type : String)
    (requested_by : Option Int) (is4k : Bool) (session_cookie : Option String) :
    Option MediaRequest :=
  match session_cookie with
  | some c =>
    some { media_id := media_id, media_type := media_type
         , userId := requested_by, is4k := is4k, auth := ReqAuth.cookieAuth c }
  | none =>
    if mode = BotMode.api then
      some { media_id := media_id, media_type := media_type
           , userId := requested_by, is4k := is4k, auth := ReqAuth.apiKey }
    else none

/-- User-visible outcome of a `confirm_*` button press. -/
inductive ConfirmOutcome
| needLogin
| reloginFailed
| sharedExpired
| noAuth
| sent (req : MediaRequest)
deriving DecidableEq

/-- Result of handling a `confirm_*` press: the outcome, the updated
`user_data`, the updated global state, and how many `overseerr_login`
calls were made while resolving credentials. -/
structure ConfirmResult where
  outcome : ConfirmOutcome
  ctx : UserCtx
  st : BotState
  login_attempts : Nat
deriving DecidableEq

/-- Wrap `request_media`'s optional result as an outcome. -/
def sendResult (r : Option MediaRequest) : ConfirmOutcome :=
  match r with
  | some req => ConfirmOutcome.sent req
  | none => ConfirmOutcome.noAuth

/-- The credential-resolution and dispatch portion of the `confirm_*`
branch of `button_handler` (source lines 2228-2301) for a single request
(`confirm_1080p_*` / `confirm_4k_*`; `confirm_both_*` runs it twice).
Normal mode: probe the cached cookie; on failure re-login once with the
stored credentials — on success the fresh cookie is written to
`user_data` and the sessions store, but the local `session_cookie`
variable still holds the stale cookie, which is what `request_media`
receives; on failure `session_data` is popped from `user_data` only.
Shared mode: a failed probe aborts with no re-login.  API mode: no
session; `userId` defaults to 1 when no selection is cached. -/
def confirm_request (be : Backend) (uid : String) (ctx : UserCtx) (st : BotState)
    (media_id : Int) (media_type : String) (is4k : Bool) : ConfirmResult :=
  match st.mode with
  | BotMode.normal =>
    match ctx.session_data with
    | none => { outcome := ConfirmOutcome.needLogin, ctx := ctx, st := st, login_attempts := 0 }
    | some sd =>
      if be.session_valid sd.cookie then
        { outcome := sendResult (request_media st.mode media_id media_type none is4k (some sd.cookie))
        , ctx := ctx, st := st, login_attempts := 0 }
      else
        match be.login sd.credentials with
        | some new_cookie =>
          { outcome := sendResult (request_media st.mode media_id media_type none is4k (some sd.cookie))
          , ctx := { ctx with session_data := some { sd with cookie := new_cookie } }
          , st := { st with user_sessions := setSessionCookie st.user_sessions uid new_cookie }
          , login_attempts := 1 }
        | none =>
          { outcome := ConfirmOutcome.reloginFailed
          , ctx := { ctx with session_data := none }
          , st := st, login_attempts := 1 }
  | BotMode.shared =>
    match st.shared_session with
    | none => { outcome := ConfirmOutcome.sharedExpired, ctx := ctx, st := st, login_attempts := 0 }
    | some ss =>
      if be.session_valid ss.cookie then
        { outcome := sendResult (request_media st.mode media_id media_type none is4k (some ss.cookie))
        , ctx := ctx, st := st, login_attempts := 0 }
      else
        { outcome := ConfirmOutcome.sharedExpired, ctx := ctx, st := st, login_attempts := 0 }
  | BotMode.api =>
    { outcome := sendResult (request_media st.mode media_id media_type
        (some (ctx.overseerr_telegram_user_id.getD 1)) is4k none)
    , ctx := ctx, st := st, login_attempts := 0 }

/-- `BotMode[mode.upper()]` of the `activate_*` branch. -/
def parseBotMode (s : String) : Option BotMode :=
  if s = "normal" then some BotMode.normal
  else if s = "api" then some BotMode.api
  else if s = "shared" then some BotMode.shared
  else none

/-- `activate_*` branch of `button_handler` (source lines 2131-2137):
admin-only; set `config["mode"]`, switch `CURRENT_MODE`, and persist.  An
unknown mode name raises before `save_config`, leaving both unchanged. -/
def activate_mode_action (is_admin : Bool) (m : String) (cfg : Config) (cur : BotMode) :
    Config × BotMode :=
  if is_admin then
    match parseBotMode m with
    | some bm => ({ cfg with mode := m }, bm)
    | none => (cfg, cur)
  else (cfg, cur)

/-- Claim C2: the credential and attribution of a `confirm_*` action are
decided by the mode current when the action is handled: after an admin
switches to API mode, the request is sent with the service API key and a
`userId` taken from the stored identity selection, never with a cached
session cookie, and no login call is made. -/
theorem C2_mode_at_call_time
    (be : Backend) (cfg : Config) (cur : BotMode) (uid : String)
    (ctx : UserCtx) (st : BotState) (sel : UserSelection)
    (mid : Int) (mt : String) (k : Bool)
    (hmode : st.mode = (activate_mode_action true "api" cfg cur).2)
    (hsel : lookupSelection st.user_selections uid = some sel)
    (hid : sel.userId ≠ 0) :
    (confirm_request be uid (user_data_loader uid ctx st) st mid mt k).outcome =
      ConfirmOutcome.sent
        { media_id := mid, media_type := mt, userId := some sel.userId
        , is4k := k, auth := ReqAuth.apiKey }
    ∧ (∀ (req : MediaRequest) (c : String),
        (confirm_request be uid (user_data_loader uid ctx st) st mid mt k).outcome =
          ConfirmOutcome.sent req → req.auth ≠ ReqAuth.cookieAuth c)
    ∧ (confirm_request be uid (user_data_loader uid ctx st) st mid mt k).login_attempts = 0 := by
  have hparse : parseBotMode "api" = some BotMode.api := rfl
  have hm : st.mode = BotMode.api := by
    rw [hmode]
    simp [activate_mode_action, hparse]
  have hctx : user_data_loader uid ctx st =
      { ctx with overseerr_telegram_user_id := some sel.userId } := by
    simp [user_data_loader, hm, hsel, hid]
  have hout : confirm_request be uid (user_data_loader uid ctx st) st mid mt k =
      { outcome := ConfirmOutcome.sent
          { media_id := mid, media_type := mt, userId := some sel.userId
          , is4k := k, auth := ReqAuth.apiKey }
      , ctx := user_data_loader uid ctx st, st := st, login_attempts := 0 } := by
    rw [hctx]
    simp [confirm_request, hm, request_media, sendResult]
  refine ⟨by rw [hout], ?_, by rw [hout]⟩
  intro req c hr
  rw [hout] at hr
  injection hr with h
  rw [← h]
  simp

/-- Closed instance of `C2_mode_at_call_time`: a user who still carries a
cached Normal-mode cookie presses confirm after the admin switched to API
mode; the request goes out under the API key attributed to identity 42. -/
theorem C2_mode_at_call_time_witness :
    (confirm_request
      { session_valid := fun _ => true, login := fun _ => some "x" }
      "7"
      (user_data_loader "7"
        { session_data := some { cookie := "cached", credentials := "a@x:pw"
                               , overseerr_telegram_user_id := 9, overseerr_user_name := "A" }
        , overseerr_telegram_user_id := some 9 }
        { mode := BotMode.api, user_sessions := [], shared_session := none
        , user_selections := [("7", { userId := 42, userName := "alice" })] })
      { mode := BotMode.api, user_sessions := [], shared_session := none
      , user_selections := [("7", { userId := 42, userName := "alice" })] }
      100 "movie" false).outcome =
      ConfirmOutcome.sent
        { media_id := 100, media_type := "movie", userId := some 42
        , is4k := false, auth := ReqAuth.apiKey }
    ∧ (∀ (req : MediaRequest) (c : String),
        (confirm_request
          { session_valid := fun _ => true, login := fun _ => some "x" }
          "7"
          (user_data_loader "7"
            { session_data := some { cookie := "cached", credentials := "a@x:pw"
                                   , overseerr_telegram_user_id := 9, overseerr_user_name := "A" }
            , overseerr_telegram_user_id := some 9 }
            { mode := BotMode.api, user_sessions := [], shared_session := none
            , user_selections := [("7", { userId := 42, userName := "alice" })] })
          { mode := BotMode.api, user_sessions := [], shared_session := none
          , user_selections := [("7", { userId := 42, userName := "alice" })] }
          100 "movie" false).outcome =
          ConfirmOutcome.sent req → req.auth ≠ ReqAuth.cookieAuth c)
    ∧ (confirm_request
        { session_valid := fun _ => true, login := fun _ => some "x" }
        "7"
        (user_data_loader "7"
          { session_data := some { cookie := "cached", credentials := "a@x:pw"
                                 , overseerr_telegram_user_id := 9, overseerr_user_name := "A" }
          , overseerr_telegram_user_id := some 9 }
          { mode := BotMode.api, user_sessions := [], shared_session := none
          , user_selections := [("7", { userId := 42, userName := "alice" })] })
        { mode := BotMode.api, user_sessions := [], shared_session := none
        , user_selections := [("7", { userId := 42, userName := "alice" })] }
        100 "movie" false).login_attempts = 0 :=
  C2_mode_at_call_time
    { session_valid := fun _ => true, login := fun _ => some "x" }
    default_config BotMode.normal "7"
    { session_data := some { cookie := "cached", credentials := "a@x:pw"
                           , overseerr_telegram_user_id := 9, overseerr_user_name := "A" }
    , overseerr_telegram_user_id := some 9 }
    { mode := BotMode.api, user_sessions := [], shared_session := none
    , user_selections := [("7", { userId := 42, userName := "alice" })] }
    { userId := 42, userName := "alice" }
    100 "movie" false rfl rfl (by decide)

/-- Claim C10: in API mode a `confirm_*` press with no stored identity
selection is not rejected: the request is sent under the API key with
`userId` silently defaulting to 1. -/
theorem C10_api_default_identity
    (be : Backend) (uid : String) (ctx : UserCtx) (st : BotState)
    (mid : Int) (mt : String) (k : Bool)
    (hm : st.mode = BotMode.api)
    (hnone : ctx.overseerr_telegram_user_id = none) :
    confirm_request be uid ctx st mid mt k =
      { outcome := ConfirmOutcome.sent
          { media_id := mid, media_type := mt, userId := some 1
          , is4k := k, auth := ReqAuth.apiKey }
      , ctx := ctx, st := st, login_attempts := 0 } := by
  simp [confirm_request, hm, hnone, request_media, sendResult]

/-- Closed instance of `C10_api_default_identity` at a concrete state. -/
theorem C10_api_default_identity_witness :
    confirm_request
      { session_valid := fun _ => false, login := fun _ => none }
      "8" { session_data := none, overseerr_telegram_user_id := none }
      { mode := BotMode.api, user_sessions := [], shared_session := none
      , user_selections := [] }
      55 "tv" true =
      { outcome := ConfirmOutcome.sent
          { media_id := 55, media_type := "tv", userId := some 1
          , is4k := true, auth := ReqAuth.apiKey }
      , ctx := { session_data := none, overseerr_telegram_user_id := none }
      , st := { mode := BotMode.api, user_sessions := [], shared_session := none
              , user_selections := [] }
      , login_attempts := 0 } :=
  C10_api_default_identity
    { session_valid := fun _ => false, login := fun _ => none }
    "8" { session_data := none, overseerr_telegram_user_id := none }
    { mode := BotMode.api, user_sessions := [], shared_session := none
    , user_selections := [] }
    55 "tv" true rfl rfl

/-- Counterexample to claim C7 as stated: in Shared mode a failed validity
probe triggers NO re-authentication attempt at all — the handler aborts
with "Shared session expired" after zero login calls, even though the
stored credentials would succeed.  The claimed "exactly one
re-authentication" is false. -/
theorem C7_shared_reauth_counterexample :
    (confirm_request
      { session_valid := fun _ => false, login := fun _ => some "fresh" }
      "7" { session_data := none, overseerr_telegram_user_id := none }
      { mode := BotMode.shared, user_sessions := []
      , shared_session := some { cookie := "stale", credentials := "admin@x:pw"
                               , overseerr_telegram_user_id := 3
                               , overseerr_user_name := "Admin" }
      , user_selections := [] }
      10 "movie" false).login_attempts = 0
    ∧ (confirm_request
      { session_valid := fun _ => false, login := fun _ => some "fresh" }
      "7" { session_data := none, overseerr_telegram_user_id := none }
      { mode := BotMode.shared, user_sessions := []
      , shared_session := some { cookie := "stale", credentials := "admin@x:pw"
                               , overseerr_telegram_user_id := 3
                               , overseerr_user_name := "Admin" }
      , user_selections := [] }
      10 "movie" false).outcome = ConfirmOutcome.sharedExpired :=
  ⟨rfl, rfl⟩

/-- Claim C7 as amended: in Shared mode a failed validity probe during a
`confirm_*` action attempts no re-authentication; the action aborts
terminally with the "Shared session expired" error and neither the
`user_data` nor the stored shared session changes. -/
theorem C7_shared_no_reauth
    (be : Backend) (uid : String) (ctx : UserCtx) (st : BotState)
    (ss : SessionData) (mid : Int) (mt : String) (k : Bool)
    (hm : st.mode = BotMode.shared)
    (hss : st.shared_session = some ss)
    (hbad : be.session_valid ss.cookie = false) :
    confirm_request be uid ctx st mid mt k =
      { outcome := ConfirmOutcome.sharedExpired
      , ctx := ctx, st := st, login_attempts := 0 } := by
  simp [confirm_request, hm, hss, hbad]

/-- Closed instance of `C7_shared_no_reauth` at a concrete state. -/
theorem C7_shared_no_reauth_witness :
    confirm_request
      { session_valid := fun _ => false, login := fun _ => some "fresh" }
      "9" { session_data := none, overseerr_telegram_user_id := none }
      { mode := BotMode.shared, user_sessions := []
      , shared_session := some { cookie := "stale2", credentials := "admin@x:pw"
                               , overseerr_telegram_user_id := 3
                               , overseerr_user_name := "Admin" }
      , user_selections := [] }
      11 "tv" false =
      { outcome := ConfirmOutcome.sharedExpired
      , ctx := { session_data := none, overseerr_telegram_user_id := none }
      , st := { mode := BotMode.shared, user_sessions := []
              , shared_session := some { cookie := "stale2", credentials := "admin@x:pw"
                                       , overseerr_telegram_user_id := 3
                                       , overseerr_user_name := "Admin" }
              , user_selections := [] }
      , login_attempts := 0 } :=
  C7_shared_no_reauth
    { session_valid := fun _ => false, login := fun _ => some "fresh" }
    "9" { session_data := none, overseerr_telegram_user_id := none }
    { mode := BotMode.shared, user_sessions := []
    , shared_session := some { cookie := "stale2", credentials := "admin@x:pw"
                             , overseerr_telegram_user_id := 3
                             , overseerr_user_name := "Admin" }
    , user_selections := [] }
    { cookie := "stale2", credentials := "admin@x:pw"
    , overseerr_telegram_user_id := 3, overseerr_user_name := "Admin" }
    11 "tv" false rfl rfl rfl

/-- The Normal-mode session of the C1 scenario. -/
def c1Session : SessionData :=
  { cookie := "oldc", credentials := "alice@x:pw"
  , overseerr_telegram_user_id := 7, overseerr_user_name := "Alice" }

/-- Backend where the stored cookie is stale but re-login succeeds. -/
def c1GoodBe : Backend :=
  { session_valid := fun c => c == "newc"
  , login := fun cr => if cr == "alice@x:pw" then some "newc" else none }

/-- Backend where both the probe and the re-login fail. -/
def c1BadBe : Backend :=
  { session_valid := fun _ => false, login := fun _ => none }

/-- Global state of the C1 scenario: Normal mode, session persisted. -/
def c1State : BotState :=
  { mode := BotMode.normal, user_sessions := [("5", c1Session)]
  , shared_session := none, user_selections := [] }

/-- Per-user data of the C1 scenario: session cached in memory. -/
def c1Ctx : UserCtx :=
  { session_data := some c1Session, overseerr_telegram_user_id := some 7 }

/-- Claim C1, evaluated at the failing input: when the probe fails and the
single re-login succeeds, the fresh cookie is persisted to the sessions
store — but the request is then sent with the STALE cookie (the local
`session_cookie` variable is never reassigned).  When the re-login fails,
only the in-memory copy is dropped: the persisted record survives, the
next update's `user_data_loader` restores it, and a second `confirm_*`
press re-attempts re-login with the same stored credentials, contradicting
the claim's "deleted (both copies)" and "does not attempt re-login again". -/
theorem C1_session_reauth_behavior :
    (confirm_request c1GoodBe "5" c1Ctx c1State 10 "movie" false).login_attempts = 1
    ∧ lookupSession (confirm_request c1GoodBe "5" c1Ctx c1State 10 "movie" false).st.user_sessions "5"
        = some { c1Session with cookie := "newc" }
    ∧ (confirm_request c1GoodBe "5" c1Ctx c1State 10 "movie" false).outcome =
        ConfirmOutcome.sent
          { media_id := 10, media_type := "movie", userId := none
          , is4k := false, auth := ReqAuth.cookieAuth "oldc" }
    ∧ (confirm_request c1BadBe "5" c1Ctx c1State 10 "movie" false).outcome =
        ConfirmOutcome.reloginFailed
    ∧ (confirm_request c1BadBe "5" c1Ctx c1State 10 "movie" false).ctx.session_data = none
    ∧ (confirm_request c1BadBe "5" c1Ctx c1State 10 "movie" false).st.user_sessions =
        [("5", c1Session)]
    ∧ (confirm_request c1BadBe "5"
        (user_data_loader "5"
          (confirm_request c1BadBe "5" c1Ctx c1State 10 "movie" false).ctx
          (confirm_request c1BadBe "5" c1Ctx c1State 10 "movie" false).st)
        (confirm_request c1BadBe "5" c1Ctx c1State 10 "movie" false).st
        10 "movie" false).login_attempts = 1 :=
  ⟨rfl, rfl, rfl, rfl, rfl, rfl, rfl⟩

/-- `sessions[uid] = sd` followed by `save_user_sessions` (lines 909-911):
replace the whole entry or append it. -/
def setSession (sessions : List (String × SessionData)) (uid : String)
    (sd : SessionData) : List (String × SessionData) :=
  if (sessions.find? (fun p => p.1 == uid)).isSome then
    sessions.map (fun p => if p.1 == uid then (p.1, sd) else p)
  else sessions ++ [(uid, sd)]

/-- `context.user_data["login_step"]` values. -/
inductive LoginStep
| email
| password
deriving DecidableEq

/-- `context.user_data["reporting_issue"]`. -/
structure ReportingIssue where
  issue_type : Nat
  issue_type_name : String
deriving DecidableEq

/-- The fields of `context.user_data["selected_result"]` the issue flow reads. -/
structure SelectedMedia where
  overseerr_id : Option Int
  title : String
  mediaType : String
deriving DecidableEq

/-- The subset of `context.user_data` that `handle_text_input` reads and
writes. -/
structure TextCtx where
  reporting_issue : Option ReportingIssue
  awaiting_password : Bool
  login_step : Option LoginStep
  login_email : Option String
  creating_new_user : Bool
  new_user_data : List (String × String)
  selected_result : Option SelectedMedia
  session_data : Option SessionData
  overseerr_telegram_user_id : Option Int
  overseerr_user_name : Option String
deriving DecidableEq

/-- The user-visible reply chosen by `handle_text_input`. -/
inductive TextAction
| issueReported (success : Bool) (title : String)
| issueError
| accessGranted
| passwordRetry
| ignoredRestricted
| loginPromptedPassword
| loginFailed
| loginInvalidUser
| loginSucceeded (name : String)
| fallbackUnrecognized
deriving DecidableEq

/-- Result of one `handle_text_input` step. -/
structure TextResult where
  action : TextAction
  ctx : TextCtx
  cfg : Config
  st : BotState
deriving DecidableEq

/-- The username-refresh block at the top of `handle_text_input` (source
lines 756-765): create or rewrite the user record, preserving the
authorization flags and `created_at`, whenever the record is missing or
the Telegram username changed. -/
def refresh_username (uid username now : String) (cfg : Config) : Config :=
  match lookupUser cfg.users uid with
  | none =>
    let r : UserRecord :=
      { username := username, is_authorized := false, is_blocked := false
      , is_admin := false, created_at := now }
    { cfg with users := setUser cfg.users uid r }
  | some u =>
    if u.username ≠ username then
      let r : UserRecord :=
        { username := username, is_authorized := u.is_authorized
        , is_blocked := u.is_blocked, is_admin := u.is_admin
        , created_at := u.created_at }
      { cfg with users := setUser cfg.users uid r }
    else cfg

/-- The allow-list write of the password-match branch (source lines
836-846): if the user is not yet authorized, store an authorized,
unblocked record (admin flag preserved, fresh `created_at`) and persist. -/
def grant_authorization (uid username now : String) (cfg : Config) : Config :=
  match lookupUser cfg.users uid with
  | some u =>
    if u.is_authorized then cfg
    else
      let r : UserRecord :=
        { username := username, is_authorized := true, is_blocked := false
        , is_admin := u.is_admin, created_at := now }
      { cfg with users := setUser cfg.users uid r }
  | none =>
    let r : UserRecord :=
      { username := username, is_authorized := true, is_blocked := false
      , is_admin := false, created_at := now }
    { cfg with users := setUser cfg.users uid r }

/-- The config effects of `start_command` (source lines 1048-1096): after
the permission and password gates, set the primary chat when Group Mode is
on, then make the caller the first admin when no admin exists yet. -/
def start_command_config_update (password_configured : Bool) (uidN : Int)
    (username now : String) (chat_id : Int) (thread : Option Int) (cfg : Config) : Config :=
  if !(is_command_allowed chat_id thread cfg uidN) then cfg
  else if password_configured && !(user_is_authorized cfg uidN) then cfg
  else
    let cfg2 := if cfg.group_mode then
        { cfg with primary_chat_id := { chat_id := some chat_id, message_thread_id := thread } }
      else cfg
    if cfg2.users.any (fun p => p.2.is_admin) then cfg2
    else
      let r : UserRecord :=
        { username := username, is_authorized := true, is_blocked := false
        , is_admin := true, created_at := now }
      { cfg2 with users := setUser cfg2.users (toString uidN) r }

/-- `handle_text_input` (source lines 742-933): username refresh, then the
dispatch chain — issue description, password authentication, Group-Mode
restriction, the two login-wizard steps, and the unrecognized-text
fallback.  The HTTP calls are abstracted by the `Backend` oracles; the
outgoing chat replies by the `TextAction` tag.  There is no branch for
`creating_new_user`: no handler in the source consumes it. -/
def handle_text_input (be : Backend) (password : String) (uidN : Int)
    (username : String) (chat_id : Int) (thread : Option Int) (now : String)
    (text : String) (ctx : TextCtx) (cfg : Config) (st : BotState) : TextResult :=
  let uid := toString uidN
  let cfg := refresh_username uid username now cfg
  match ctx.reporting_issue with
  | some _ =>
    match ctx.selected_result with
    | none => { action := TextAction.issueError, ctx := ctx, cfg := cfg, st := st }
    | some sr =>
      { action := TextAction.issueReported be.issue_ok sr.title
      , ctx := { ctx with reporting_issue := none, selected_result := none }
      , cfg := cfg, st := st }
  | none =>
  if ctx.awaiting_password then
    if text = password then
      { action := TextAction.accessGranted
      , ctx := { ctx with awaiting_password := false }
      , cfg := grant_authorization uid username now cfg
      , st := st }
    else
      { action := TextAction.passwordRetry, ctx := ctx, cfg := cfg, st := st }
  else if !(is_command_allowed chat_id thread cfg uidN) then
    { action := TextAction.ignoredRestricted, ctx := ctx, cfg := cfg, st := st }
  else
    match ctx.login_step with
    | some LoginStep.email =>
      { action := TextAction.loginPromptedPassword
      , ctx := { ctx with login_email := some text, login_step := some LoginStep.password }
      , cfg := cfg, st := st }
    | some LoginStep.password =>
      let email := ctx.login_email.getD ""
      match be.login (email ++ ":" ++ text) with
      | none =>
        { action := TextAction.loginFailed
        , ctx := { ctx with login_step := none, login_email := none }
        , cfg := cfg, st := st }
      | some cookie =>
        let oid := be.auth_me_id cookie
        if oid = 0 then
          { action := TextAction.loginInvalidUser, ctx := ctx, cfg := cfg, st := st }
        else
          let sd : SessionData :=
            { cookie := cookie, credentials := email ++ ":" ++ text
            , overseerr_telegram_user_id := oid
            , overseerr_user_name := be.auth_me_name cookie }
          let is_admin := ((lookupUser cfg.users uid).map (fun u => u.is_admin)).getD false
          let st2 := match st.mode with
            | BotMode.normal => { st with user_sessions := setSession st.user_sessions uid sd }
            | BotMode.shared => if is_admin then { st with shared_session := some sd } else st
            | BotMode.api => st
          let ctx2 :=
            { ctx with session_data := some sd, login_step := none, login_email := none }
          { action := TextAction.loginSucceeded sd.overseerr_user_name
          , ctx := ctx2, cfg := cfg, st := st2 }
    | none =>
      { action := TextAction.fallbackUnrecognized, ctx := ctx, cfg := cfg, st := st }

/-- The per-user data right after the `create_user` button (source lines
2050-2066): the wizard flags are set, everything else is idle. -/
def c4Ctx : TextCtx :=
  { reporting_issue := none, awaiting_password := false, login_step := none
  , login_email := none, creating_new_user := true, new_user_data := []
  , selected_result := none, session_data := none
  , overseerr_telegram_user_id := none, overseerr_user_name := none }

/-- Config of the C4 scenario: one admin, username already current. -/
def c4Cfg : Config :=
  { group_mode := false
  , primary_chat_id := { chat_id := none, message_thread_id := none }
  , mode := "api"
  , users := [("3", { username := "Ada", is_authorized := true, is_blocked := false
                    , is_admin := true, created_at := "t0" })] }

/-- Global state of the C4 scenario. -/
def c4St : BotState :=
  { mode := BotMode.api, user_sessions := [], shared_session := none
  , user_selections := [] }

/-- Claim C4, evaluated at the failing input: after the admin presses
"create new user" (setting `creating_new_user` and an empty
`new_user_data`), the next text message — the e-mail the bot itself asked
for — falls through every branch of `handle_text_input` to the
"I didn't understand that" fallback: no field is filled, no create-identity
endpoint is called, and the wizard state is left dangling. -/
theorem C4_creation_wizard_missing :
    handle_text_input
      { session_valid := fun _ => true, login := fun _ => none }
      "pw" 3 "Ada" 3 none "t1" "alice@example.com" c4Ctx c4Cfg c4St =
      { action := TextAction.fallbackUnrecognized
      , ctx := c4Ctx, cfg := c4Cfg, st := c4St } :=
  rfl

lemma lookupUser_setUser (users : List (String × UserRecord)) (uid : String)
    (r : UserRecord) : lookupUser (setUser users uid r) uid = some r := by
  unfold setUser
  by_cases h : (users.find? (fun p => p.1 == uid)).isSome
  · simp only [h, if_true]
    have h2 := lookupUser_modifyUser users uid (fun _ => r)
    simp only [modifyUser] at h2
    rw [show (fun p : String × UserRecord => if p.1 == uid then (p.1, r) else p)
          = (fun p : String × UserRecord => if p.1 == uid then (p.1, (fun _ => r) p.2) else p)
        from rfl]
    rw [h2]
    rw [Option.isSome_iff_exists] at h
    obtain ⟨p, hp⟩ := h
    simp [lookupUser, hp]
  · simp only [h, if_false]
    have hn : users.find? (fun p => p.1 == uid) = none := by
      rw [← Option.not_isSome_iff_eq_none]
      exact h
    simp [lookupUser, List.find?_append, hn]

lemma lookupUser_admin_false (users : List (String × UserRecord)) (uid : String)
    (u : UserRecord) (hl : lookupUser users uid = some u)
    (h : users.any (fun p => p.2.is_admin) = false) : u.is_admin = false := by
  unfold lookupUser at hl
  cases hf : users.find? (fun q => q.1 == uid) with
  | none => rw [hf] at hl; simp at hl
  | some p =>
    rw [hf] at hl
    simp at hl
    have hm := List.mem_of_find?_eq_some hf
    rw [List.any_eq_false] at h
    have hp := h p hm
    rw [← hl]
    simpa using hp

lemma any_admin_setUser (users : List (String × UserRecord)) (uid : String)
    (r : UserRecord) (hr : r.is_admin = false)
    (h : users.any (fun p => p.2.is_admin) = false) :
    (setUser users uid r).any (fun p => p.2.is_admin) = false := by
  unfold setUser
  by_cases hs : (users.find? (fun p => p.1 == uid)).isSome
  · simp only [hs, if_true]
    rw [List.any_eq_false] at h ⊢
    intro x hx
    rw [List.mem_map] at hx
    obtain ⟨a, ha, hax⟩ := hx
    by_cases hk : (a.1 == uid) = true
    · rw [← hax]
      simp [hk, hr]
    · have hk2 : (a.1 == uid) = false := by simpa using hk
      rw [← hax]
      simpa [hk2] using h a ha
  · simp only [hs, if_false]
    simp [List.any_append, h, hr]

lemma refresh_username_fields (uid username now : String) (cfg : Config) :
    (refresh_username uid username now cfg).group_mode = cfg.group_mode
    ∧ (refresh_username uid username now cfg).primary_chat_id = cfg.primary_chat_id := by
  unfold refresh_username
  cases hlk : lookupUser cfg.users uid with
  | none => exact ⟨rfl, rfl⟩
  | some u =>
    by_cases hname : u.username ≠ username
    · simp [hname]
    · simp [hname]

lemma refresh_username_flags (uid username now : String) (cfg : Config) :
    ((lookupUser (refresh_username uid username now cfg).users uid).map
        (fun u => u.is_authorized)).getD false
      = ((lookupUser cfg.users uid).map (fun u => u.is_authorized)).getD false
    ∧ ((lookupUser (refresh_username uid username now cfg).users uid).map
        (fun u => u.is_blocked)).getD false
      = ((lookupUser cfg.users uid).map (fun u => u.is_blocked)).getD false
    ∧ ((lookupUser (refresh_username uid username now cfg).users uid).map
        (fun u => u.is_admin)).getD false
      = ((lookupUser cfg.users uid).map (fun u => u.is_admin)).getD false := by
  unfold refresh_username
  cases hlk : lookupUser cfg.users uid with
  | none => simp [hlk, lookupUser_setUser]
  | some u =>
    by_cases hname : u.username ≠ username
    · simp [hlk, hname, lookupUser_setUser]
    · simp [hlk, hname]

lemma any_admin_refresh (uid username now : String) (cfg : Config)
    (h : cfg.users.any (fun p => p.2.is_admin) = false) :
    (refresh_username uid username now cfg).users.any (fun p => p.2.is_admin) = false := by
  unfold refresh_username
  cases hlk : lookupUser cfg.users uid with
  | none => exact any_admin_setUser cfg.users uid _ rfl h
  | some u =>
    by_cases hname : u.username ≠ username
    · have hadm := lookupUser_admin_false cfg.users uid u hlk h
      have hs := any_admin_setUser cfg.users uid
          { username := username, is_authorized := u.is_authorized, is_blocked := u.is_blocked
          , is_admin := u.is_admin, created_at := u.created_at } hadm h
      simpa [hname] using hs
    · simpa [hname] using h

lemma grant_authorization_fields (uid username now : String) (cfg : Config) :
    (grant_authorization uid username now cfg).group_mode = cfg.group_mode
    ∧ (grant_authorization uid username now cfg).primary_chat_id = cfg.primary_chat_id := by
  unfold grant_authorization
  cases hlk : lookupUser cfg.users uid with
  | none => exact ⟨rfl, rfl⟩
  | some u =>
    by_cases hauth : u.is_authorized
    · simp [hauth]
    · simp [hauth]

lemma grant_authorization_write (uid username now : String) (cfg : Config)
    (h : ((lookupUser cfg.users uid).map (fun u => u.is_authorized)).getD false = false) :
    lookupUser (grant_authorization uid username now cfg).users uid =
      some { username := username, is_authorized := true, is_blocked := false
           , is_admin := ((lookupUser cfg.users uid).map (fun u => u.is_admin)).getD false
           , created_at := now } := by
  unfold grant_authorization
  cases hlk : lookupUser cfg.users uid with
  | none => simp [hlk, lookupUser_setUser]
  | some u =>
    rw [hlk] at h
    simp at h
    simp [hlk, h, lookupUser_setUser]

lemma any_admin_grant (uid username now : String) (cfg : Config)
    (h : cfg.users.any (fun p => p.2.is_admin) = false) :
    (grant_authorization uid username now cfg).users.any (fun p => p.2.is_admin) = false := by
  unfold grant_authorization
  cases hlk : lookupUser cfg.users uid with
  | none => exact any_admin_setUser cfg.users uid _ rfl h
  | some u =>
    by_cases hauth : u.is_authorized
    · simpa [hauth] using h
    · have hadm := lookupUser_admin_false cfg.users uid u hlk h
      have hs := any_admin_setUser cfg.users uid
          { username := username, is_authorized := true, is_blocked := false
          , is_admin := u.is_admin, created_at := now } hadm h
      simpa [hauth] using hs

lemma effective_admin_false (users : List (String × UserRecord)) (uid : String)
    (h : users.any (fun p => p.2.is_admin) = false) :
    ((lookupUser users uid).map (fun u => u.is_admin)).getD false = false := by
  cases hlk : lookupUser users uid with
  | none => simp
  | some u => simpa using lookupUser_admin_false users uid u hlk h

lemma grant_authorization_effect (uid username now : String) (cfg : Config) :
    ((lookupUser (grant_authorization uid username now cfg).users uid).map
        (fun u => u.is_authorized)).getD false = true := by
  unfold grant_authorization
  cases hlk : lookupUser cfg.users uid with
  | none => simp [lookupUser_setUser]
  | some u =>
    by_cases hauth : u.is_authorized
    · simp [hlk, hauth]
    · simp [hauth, lookupUser_setUser]

lemma handle_text_password_grant (be : Backend) (password : String) (uidN : Int)
    (username now : String) (chat_id : Int) (thread : Option Int)
    (text : String) (ctx : TextCtx) (cfg : Config) (st : BotState)
    (hnoissue : ctx.reporting_issue = none)
    (hawait : ctx.awaiting_password = true)
    (htext : text = password) :
    handle_text_input be password uidN username chat_id thread now text ctx cfg st =
      { action := TextAction.accessGranted
      , ctx := { ctx with awaiting_password := false }
      , cfg := grant_authorization (toString uidN) username now
          (refresh_username (toString uidN) username now cfg)
      , st := st } := by
  simp [handle_text_input, hnoissue, hawait, htext]

lemma handle_text_password_retry (be : Backend) (password : String) (uidN : Int)
    (username now : String) (chat_id : Int) (thread : Option Int)
    (text : String) (ctx : TextCtx) (cfg : Config) (st : BotState)
    (hnoissue : ctx.reporting_issue = none)
    (hawait : ctx.awaiting_password = true)
    (htext : text ≠ password) :
    handle_text_input be password uidN username chat_id thread now text ctx cfg st =
      { action := TextAction.passwordRetry, ctx := ctx
      , cfg := refresh_username (toString uidN) username now cfg, st := st } := by
  simp [handle_text_input, hnoissue, hawait, htext]

/-- The per-user data while awaiting the bot password. -/
def c5Ctx : TextCtx :=
  { reporting_issue := none, awaiting_password := true, login_step := none
  , login_email := none, creating_new_user := false, new_user_data := []
  , selected_result := none, session_data := none
  , overseerr_telegram_user_id := none, overseerr_user_name := none }

/-- Backend oracles of the C5 scenario; the password flow makes no call. -/
def c5Be : Backend :=
  { session_valid := fun _ => true, login := fun _ => none }

/-- Global state of the C5 scenario. -/
def c5St : BotState :=
  { mode := BotMode.normal, user_sessions := [], shared_session := none
  , user_selections := [] }

/-- Modelled from the spec's words "exact string match after trimming":
strip leading and trailing whitespace from a character list.  Used only to
compare the claimed behaviour with the code's untrimmed comparison. -/
def specTrim (s : List Char) : List Char :=
  ((s.dropWhile Char.isWhitespace).reverse.dropWhile Char.isWhitespace).reverse

/-- Counterexample to claim C5 as stated: the code compares the supplied
text to the configured password EXACTLY, with no whitespace trimming —
with password "pw", the input with a trailing blank is rejected although
it matches after trimming.  Moreover a non-matching text from a
first-time user does change the persisted config (the username-refresh
block writes a user record before the password check). -/
theorem C5_password_trim_counterexample :
    (handle_text_input c5Be "pw" 4 "Bob" 4 none "t0" "pw " c5Ctx default_config c5St).action
      = TextAction.passwordRetry
    ∧ specTrim "pw ".data = specTrim "pw".data
    ∧ (handle_text_input c5Be "pw" 4 "Bob" 4 none "t0" "zzz" c5Ctx default_config c5St).cfg
        ≠ default_config := by
  refine ⟨rfl, by decide, by decide⟩

/-- Claim C5 as amended: access is granted iff the text equals the
configured password EXACTLY (no trimming); on success the user record is
persisted with `is_authorized` set and the prompt state cleared, and — via
the ensuing `/start` flow — the first such user is promoted to admin when
no admin exists; a non-matching text keeps the user awaiting the password
with a re-prompt and leaves the authorization, blocked and admin flags
unchanged (though the username-refresh block may rewrite the record). -/
theorem C5_password_authorization (be : Backend) (password : String) (uidN : Int)
    (username now : String) (chat_id : Int) (thread : Option Int) (text : String)
    (ctx : TextCtx) (cfg : Config) (st : BotState)
    (hawait : ctx.awaiting_password = true)
    (hnoissue : ctx.reporting_issue = none) :
    ((handle_text_input be password uidN username chat_id thread now text ctx cfg st).action
        = TextAction.accessGranted ↔ text = password)
    ∧ (text = password →
        ((lookupUser (handle_text_input be password uidN username chat_id thread now
            text ctx cfg st).cfg.users (toString uidN)).map
            (fun u => u.is_authorized)).getD false = true
        ∧ (handle_text_input be password uidN username chat_id thread now
            text ctx cfg st).ctx.awaiting_password = false
        ∧ (handle_text_input be password uidN username chat_id thread now
            text ctx cfg st).st = st)
    ∧ (text ≠ password →
        (handle_text_input be password uidN username chat_id thread now
            text ctx cfg st).action = TextAction.passwordRetry
        ∧ (handle_text_input be password uidN username chat_id thread now
            text ctx cfg st).ctx = ctx
        ∧ ((lookupUser (handle_text_input be password uidN username chat_id thread now
            text ctx cfg st).cfg.users (toString uidN)).map
            (fun u => u.is_authorized)).getD false
          = ((lookupUser cfg.users (toString uidN)).map (fun u => u.is_authorized)).getD false
        ∧ ((lookupUser (handle_text_input be password uidN username chat_id thread now
            text ctx cfg st).cfg.users (toString uidN)).map
            (fun u => u.is_blocked)).getD false
          = ((lookupUser cfg.users (toString uidN)).map (fun u => u.is_blocked)).getD false
        ∧ ((lookupUser (handle_text_input be password uidN username chat_id thread now
            text ctx cfg st).cfg.users (toString uidN)).map
            (fun u => u.is_admin)).getD false
          = ((lookupUser cfg.users (toString uidN)).map (fun u => u.is_admin)).getD false)
    ∧ (text = password →
        ((lookupUser cfg.users (toString uidN)).map (fun u => u.is_authorized)).getD false = false →
        cfg.group_mode = false →
        cfg.users.any (fun p => p.2.is_admin) = false →
        ((lookupUser (start_command_config_update true uidN username now chat_id thread
            (handle_text_input be password uidN username chat_id thread now
              text ctx cfg st).cfg).users (toString uidN)).map
            (fun u => u.is_admin)).getD false = true) := by
  refine ⟨?_, ?_, ?_, ?_⟩
  · by_cases htext : text = password
    · rw [handle_text_password_grant be password uidN username now chat_id thread
        text ctx cfg st hnoissue hawait htext]
      simp [htext]
    · rw [handle_text_password_retry be password uidN username now chat_id thread
        text ctx cfg st hnoissue hawait htext]
      simp [htext]
  · intro htext
    rw [handle_text_password_grant be password uidN username now chat_id thread
      text ctx cfg st hnoissue hawait htext]
    exact ⟨grant_authorization_effect _ username now _, rfl, rfl⟩
  · intro htext
    rw [handle_text_password_retry be password uidN username now chat_id thread
      text ctx cfg st hnoissue hawait htext]
    exact ⟨rfl, rfl, (refresh_username_flags _ username now cfg).1,
      (refresh_username_flags _ username now cfg).2.1,
      (refresh_username_flags _ username now cfg).2.2⟩
  · intro htext hnotauth hgroup hnoadmin
    rw [handle_text_password_grant be password uidN username now chat_id thread
      text ctx cfg st hnoissue hawait htext]
    have hauthR : ((lookupUser (refresh_username (toString uidN) username now cfg).users
        (toString uidN)).map (fun u => u.is_authorized)).getD false = false := by
      rw [(refresh_username_flags (toString uidN) username now cfg).1]
      exact hnotauth
    have hadmR : (refresh_username (toString uidN) username now cfg).users.any
        (fun p => p.2.is_admin) = false :=
      any_admin_refresh (toString uidN) username now cfg hnoadmin
    have hadmRv : ((lookupUser (refresh_username (toString uidN) username now cfg).users
        (toString uidN)).map (fun u => u.is_admin)).getD false = false :=
      effective_admin_false _ _ hadmR
    have hlkG := grant_authorization_write (toString uidN) username now
      (refresh_username (toString uidN) username now cfg) hauthR
    rw [hadmRv] at hlkG
    have hgroupR : (refresh_username (toString uidN) username now cfg).group_mode = false := by
      rw [(refresh_username_fields (toString uidN) username now cfg).1]
      exact hgroup
    have hgroupG : (grant_authorization (toString uidN) username now
        (refresh_username (toString uidN) username now cfg)).group_mode = false := by
      rw [(grant_authorization_fields (toString uidN) username now _).1]
      exact hgroupR
    have hadmG : (grant_authorization (toString uidN) username now
        (refresh_username (toString uidN) username now cfg)).users.any
        (fun p => p.2.is_admin) = false :=
      any_admin_grant (toString uidN) username now _ hadmR
    have hica : is_command_allowed chat_id thread
        (grant_authorization (toString uidN) username now
          (refresh_username (toString uidN) username now cfg)) uidN = true := by
      simp [is_command_allowed, hlkG, hgroupG]
    have huia : user_is_authorized
        (grant_authorization (toString uidN) username now
          (refresh_username (toString uidN) username now cfg)) uidN = true := by
      simp [user_is_authorized, hlkG]
    simp [start_command_config_update, hica, huia, hgroupG, hadmG, lookupUser_setUser]

/-- Closed instance of `C5_password_authorization`: user 4 sends the exact
password "pw" while awaiting it. -/
theorem C5_password_authorization_witness :
    ((handle_text_input c5Be "pw" 4 "Bob" 4 none "t0" "pw" c5Ctx default_config c5St).action
        = TextAction.accessGranted ↔ ("pw" : String) = "pw")
    ∧ (("pw" : String) = "pw" →
        ((lookupUser (handle_text_input c5Be "pw" 4 "Bob" 4 none "t0" "pw" c5Ctx
            default_config c5St).cfg.users (toString (4 : Int))).map
            (fun u => u.is_authorized)).getD false = true
        ∧ (handle_text_input c5Be "pw" 4 "Bob" 4 none "t0" "pw" c5Ctx
            default_config c5St).ctx.awaiting_password = false
        ∧ (handle_text_input c5Be "pw" 4 "Bob" 4 none "t0" "pw" c5Ctx
            default_config c5St).st = c5St)
    ∧ (("pw" : String) ≠ "pw" →
        (handle_text_input c5Be "pw" 4 "Bob" 4 none "t0" "pw" c5Ctx
            default_config c5St).action = TextAction.passwordRetry
        ∧ (handle_text_input c5Be "pw" 4 "Bob" 4 none "t0" "pw" c5Ctx
            default_config c5St).ctx = c5Ctx
        ∧ ((lookupUser (handle_text_input c5Be "pw" 4 "Bob" 4 none "t0" "pw" c5Ctx
            default_config c5St).cfg.users (toString (4 : Int))).map
            (fun u => u.is_authorized)).getD false
          = ((lookupUser default_config.users (toString (4 : Int))).map
              (fun u => u.is_authorized)).getD false
        ∧ ((lookupUser (handle_text_input c5Be "pw" 4 "Bob" 4 none "t0" "pw" c5Ctx
            default_config c5St).cfg.users (toString (4 : Int))).map
            (fun u => u.is_blocked)).getD false
          = ((lookupUser default_config.users (toString (4 : Int))).map
              (fun u => u.is_blocked)).getD false
        ∧ ((lookupUser (handle_text_input c5Be "pw" 4 "Bob" 4 none "t0" "pw" c5Ctx
            default_config c5St).cfg.users (toString (4 : Int))).map
            (fun u => u.is_admin)).getD false
          = ((lookupUser default_config.users (toString (4 : Int))).map
              (fun u => u.is_admin)).getD false)
    ∧ (("pw" : String) = "pw" →
        ((lookupUser default_config.users (toString (4 : Int))).map
            (fun u => u.is_authorized)).getD false = false →
        default_config.group_mode = false →
        default_config.users.any (fun p => p.2.is_admin) = false →
        ((lookupUser (start_command_config_update true 4 "Bob" "t0" 4 none
            (handle_text_input c5Be "pw" 4 "Bob" 4 none "t0" "pw" c5Ctx
              default_config c5St).cfg).users (toString (4 : Int))).map
            (fun u => u.is_admin)).getD false = true) :=
  C5_password_authorization c5Be "pw" 4 "Bob" "t0" 4 none "pw" c5Ctx default_config c5St
    rfl rfl

/-- `unblock_user_` branch of `button_handler` (source lines 2008-2014):
clear `is_blocked` and restore `is_authorized`. -/
def unblock_user_action (target : String) (cfg : Config) : Config :=
  let f := fun (u : UserRecord) => { u with is_blocked := false, is_authorized := true }
  { cfg with users := modifyUser cfg.users target f }

/-- `promote_user_` branch of `button_handler` (source lines 2016-2023). -/
def promote_user_action (target : String) (cfg : Config) : Config :=
  let f := fun (u : UserRecord) =>
    { u with is_admin := true, is_authorized := true, is_blocked := false }
  { cfg with users := modifyUser cfg.users target f }

/-- `demote_user_` branch of `button_handler` (source lines 2025-2033):
refuse to demote the acting main admin, otherwise clear `is_admin`. -/
def demote_user_action (actor target : String) (cfg : Config) : Config :=
  let target_is_admin := ((lookupUser cfg.users target).map (fun u => u.is_admin)).getD false
  let f := fun (u : UserRecord) => { u with is_admin := false }
  if target_is_admin && target == actor then cfg
  else { cfg with users := modifyUser cfg.users target f }

/-- `toggle_group_mode` branch of `button_handler` (source lines
2080-2091): admin-only; flip the flag and, when it lands on off, reset the
primary-chat locator to null before saving. -/
def toggle_group_mode_action (is_admin : Bool) (cfg : Config) : Config :=
  if !is_admin then cfg
  else
    let cfg2 := { cfg with group_mode := !cfg.group_mode }
    if !cfg2.group_mode then
      { cfg2 with primary_chat_id := { chat_id := none, message_thread_id := none } }
    else cfg2

/-- The claimed invariant: while the group-restriction flag is off, the
primary-channel locator is null. -/
def configInvariant (cfg : Config) : Prop :=
  cfg.group_mode = false →
    cfg.primary_chat_id = { chat_id := none, message_thread_id := none }

lemma invariant_of_fields {c c2 : Config} (hg : c2.group_mode = c.group_mode)
    (hp : c2.primary_chat_id = c.primary_chat_id) (h : configInvariant c) :
    configInvariant c2 := by
  intro h0
  rw [hp]
  exact h (hg ▸ h0)

lemma block_user_fields (actor target : String) (cfg : Config) :
    (block_user_action actor target cfg).group_mode = cfg.group_mode
    ∧ (block_user_action actor target cfg).primary_chat_id = cfg.primary_chat_id := by
  simp only [block_user_action]
  split_ifs <;> exact ⟨rfl, rfl⟩

lemma demote_user_fields (actor target : String) (cfg : Config) :
    (demote_user_action actor target cfg).group_mode = cfg.group_mode
    ∧ (demote_user_action actor target cfg).primary_chat_id = cfg.primary_chat_id := by
  simp only [demote_user_action]
  split_ifs <;> exact ⟨rfl, rfl⟩

lemma activate_mode_fields (a : Bool) (m : String) (cfg : Config) (cur : BotMode) :
    (activate_mode_action a m cfg cur).1.group_mode = cfg.group_mode
    ∧ (activate_mode_action a m cfg cur).1.primary_chat_id = cfg.primary_chat_id := by
  unfold activate_mode_action
  split_ifs
  · rcases hpm : parseBotMode m with _ | bm <;> simp [hpm]
  · exact ⟨rfl, rfl⟩

lemma start_command_invariant (pc : Bool) (uidN : Int) (username now : String)
    (chat_id : Int) (thread : Option Int) (cfg : Config)
    (h : configInvariant cfg) :
    configInvariant (start_command_config_update pc uidN username now chat_id thread cfg) := by
  simp only [start_command_config_update, configInvariant]
  split_ifs <;> intro hg <;> simp_all [configInvariant]

lemma toggle_group_mode_invariant (a : Bool) (cfg : Config)
    (h : configInvariant cfg) :
    configInvariant (toggle_group_mode_action a cfg) := by
  unfold toggle_group_mode_action configInvariant
  by_cases h1 : (!a) = true
  · simpa [h1] using h
  · by_cases h2 : cfg.group_mode = true
    · simp [h1, h2]
    · simp [h1, h2]

/-- Claim C8: the group-mode invariant — locator null whenever the flag is
off — holds of the default config, is preserved by every config-writing
operation of the bot, and toggling group mode off explicitly resets the
locator (it is only ever set, by `start_command`, while group mode is on). -/
theorem C8_group_mode_invariant (cfg : Config) (h : configInvariant cfg) :
    configInvariant default_config
    ∧ (∀ a : Bool, configInvariant (toggle_group_mode_action a cfg))
    ∧ (∀ (pc : Bool) (uidN : Int) (username now : String) (chat_id : Int)
        (thread : Option Int),
        configInvariant (start_command_config_update pc uidN username now chat_id thread cfg))
    ∧ (∀ actor target : String, configInvariant (block_user_action actor target cfg))
    ∧ (∀ target : String, configInvariant (unblock_user_action target cfg))
    ∧ (∀ target : String, configInvariant (promote_user_action target cfg))
    ∧ (∀ actor target : String, configInvariant (demote_user_action actor target cfg))
    ∧ (∀ (a : Bool) (m : String) (cur : BotMode),
        configInvariant (activate_mode_action a m cfg cur).1)
    ∧ (∀ uid username now : String, configInvariant (refresh_username uid username now cfg))
    ∧ (∀ uid username now : String, configInvariant (grant_authorization uid username now cfg))
    ∧ (cfg.group_mode = true →
        (toggle_group_mode_action true cfg).group_mode = false
        ∧ (toggle_group_mode_action true cfg).primary_chat_id =
            { chat_id := none, message_thread_id := none }) := by
  refine ⟨fun _ => rfl, ?_, ?_, ?_, ?_, ?_, ?_, ?_, ?_, ?_, ?_⟩
  · intro a
    exact toggle_group_mode_invariant a cfg h
  · intro pc uidN username now chat_id thread
    exact start_command_invariant pc uidN username now chat_id thread cfg h
  · intro actor target
    exact invariant_of_fields (block_user_fields actor target cfg).1
      (block_user_fields actor target cfg).2 h
  · intro target
    exact invariant_of_fields rfl rfl h
  · intro target
    exact invariant_of_fields rfl rfl h
  · intro actor target
    exact invariant_of_fields (demote_user_fields actor target cfg).1
      (demote_user_fields actor target cfg).2 h
  · intro a m cur
    exact invariant_of_fields (activate_mode_fields a m cfg cur).1
      (activate_mode_fields a m cfg cur).2 h
  · intro uid username now
    exact invariant_of_fields (refresh_username_fields uid username now cfg).1
      (refresh_username_fields uid username now cfg).2 h
  · intro uid username now
    exact invariant_of_fields (grant_authorization_fields uid username now cfg).1
      (grant_authorization_fields uid username now cfg).2 h
  · intro hgon
    unfold toggle_group_mode_action
    simp [hgon]

/-- Closed instance of `C8_group_mode_invariant` at a config with group
mode on and a locator set. -/
theorem C8_group_mode_invariant_witness :
    configInvariant default_config
    ∧ (∀ a : Bool, configInvariant (toggle_group_mode_action a
        { group_mode := true
        , primary_chat_id := { chat_id := some 5, message_thread_id := some 2 }
        , mode := "normal", users := [] }))
    ∧ (∀ (pc : Bool) (uidN : Int) (username now : String) (chat_id : Int)
        (thread : Option Int),
        configInvariant (start_command_config_update pc uidN username now chat_id thread
        { group_mode := true
        , primary_chat_id := { chat_id := some 5, message_thread_id := some 2 }
        , mode := "normal", users := [] }))
    ∧ (∀ actor target : String, configInvariant (block_user_action actor target
        { group_mode := true
        , primary_chat_id := { chat_id := some 5, message_thread_id := some 2 }
        , mode := "normal", users := [] }))
    ∧ (∀ target : String, configInvariant (unblock_user_action target
        { group_mode := true
        , primary_chat_id := { chat_id := some 5, message_thread_id := some 2 }
        , mode := "normal", users := [] }))
    ∧ (∀ target : String, configInvariant (promote_user_action target
        { group_mode := true
        , primary_chat_id := { chat_id := some 5, message_thread_id := some 2 }
        , mode := "normal", users := [] }))
    ∧ (∀ actor target : String, configInvariant (demote_user_action actor target
        { group_mode := true
        , primary_chat_id := { chat_id := some 5, message_thread_id := some 2 }
        , mode := "normal", users := [] }))
    ∧ (∀ (a : Bool) (m : String) (cur : BotMode),
        configInvariant (activate_mode_action a m
        { group_mode := true
        , primary_chat_id := { chat_id := some 5, message_thread_id := some 2 }
        , mode := "normal", users := [] } cur).1)
    ∧ (∀ uid username now : String, configInvariant (refresh_username uid username now
        { group_mode := true
        , primary_chat_id := { chat_id := some 5, message_thread_id := some 2 }
        , mode := "normal", users := [] }))
    ∧ (∀ uid username now : String, configInvariant (grant_authorization uid username now
        { group_mode := true
        , primary_chat_id := { chat_id := some 5, message_thread_id := some 2 }
        , mode := "normal", users := [] }))
    ∧ (({ group_mode := true
        , primary_chat_id := { chat_id := some 5, message_thread_id := some 2 }
        , mode := "normal", users := [] } : Config).group_mode = true →
        (toggle_group_mode_action true
        { group_mode := true
        , primary_chat_id := { chat_id := some 5, message_thread_id := some 2 }
        , mode := "normal", users := [] }).group_mode = false
        ∧ (toggle_group_mode_action true
        { group_mode := true
        , primary_chat_id := { chat_id := some 5, message_thread_id := some 2 }
        , mode := "normal", users := [] }).primary_chat_id =
            { chat_id := none, message_thread_id := none }) :=
  C8_group_mode_invariant
    { group_mode := true
    , primary_chat_id := { chat_id := some 5, message_thread_id := some 2 }
    , mode := "normal", users := [] }
    (by intro h0; cases h0)

end OverseerrBot
